import Mathlib

/-!
Shallow embedding of the AIRecommendationService match-scoring engine
(backend service module: `calculateStartupScore`, `calculateInvestorMatchScore`,
the per-factor sub-scorers, reason generation, and the sort-and-slice ranking).

JavaScript semantics conventions used throughout:
* absent object fields are `Option`s; reading a field of `undefined`/`null`
  throws a `TypeError`, modelled as `Except.error JSError.typeError`;
* `x || d` on numbers treats `0` as falsy (`jsOrNum`), on strings treats `""`
  as falsy (`jsOrString`);
* `x > c` where `x` is `undefined` is `false` (`optGT`);
* numbers are modelled as `ℚ`.  The one place the code can divide by zero
  (`calculateInvestmentPatternScore` with average past investment 0) lands in
  the same `0.4` branch whether the quotient is JavaScript `Infinity`
  (comparisons false) or Lean `0` (comparisons false), so `ℚ` division is
  faithful there.
-/

inductive JSError where
  | typeError : JSError
  /-- Modelled from the spec: the spec names a dedicated `InvalidInputError`
  for null mandatory entities.  The repository source defines no such error
  class; this constructor exists only so that statements about it can be
  expressed and compared with what the code actually throws. -/
  | invalidInputError : JSError
deriving DecidableEq, Repr

/-- JavaScript `x || d` for numeric fields: `undefined` and `0` are falsy. -/
def jsOrNum (x : Option ℚ) (d : ℚ) : ℚ :=
  match x with
  | none => d
  | some v => if v = 0 then d else v

/-- JavaScript `x || d` for string fields: `undefined` and `""` are falsy. -/
def jsOrString (x : Option String) (d : String) : String :=
  match x with
  | none => d
  | some s => if s = "" then d else s

/-- JavaScript `x > c` where `x` may be `undefined` (then the comparison is false). -/
def optGT (x : Option ℚ) (c : ℚ) : Bool :=
  match x with
  | none => false
  | some v => decide (c < v)

structure Location where
  city : String
  country : String
deriving DecidableEq, Repr

structure Funding where
  targetAmount : ℚ
  minimumInvestment : Option ℚ
  currentAmount : Option ℚ
  investorCount : Option ℚ
deriving DecidableEq, Repr

structure Engagement where
  likes : Option ℚ
  views : Option ℚ
  bookmarks : Option ℚ
deriving DecidableEq, Repr

structure RevenueMetrics where
  monthly : Option ℚ
  growth : Option ℚ
deriving DecidableEq, Repr

structure UserMetrics where
  total : Option ℚ
  growth : Option ℚ
deriving DecidableEq, Repr

structure TeamMetrics where
  size : Option ℚ
  growth : Option ℚ
deriving DecidableEq, Repr

structure Metrics where
  revenue : Option RevenueMetrics
  users : Option UserMetrics
  team : Option TeamMetrics
deriving DecidableEq, Repr

structure EntrepreneurProfile where
  experience : Option String
deriving DecidableEq, Repr

structure Founder where
  entrepreneurProfile : Option EntrepreneurProfile
  communityScore : Option ℚ
deriving DecidableEq, Repr

structure Startup where
  sector : String
  stage : String
  location : Option Location
  funding : Funding
  engagement : Option Engagement
  metrics : Option Metrics
  founder : Option Founder
deriving DecidableEq, Repr

/-- A populated `startupId` reference inside an investment-history entry. -/
structure PastStartup where
  sector : String
deriving DecidableEq, Repr

structure InvestmentRecord where
  startupId : Option PastStartup
  amount : Option ℚ
deriving DecidableEq, Repr

structure InvestorProfile where
  preferredSectors : Option (List String)
  riskTolerance : Option String
  investmentCapacity : Option ℚ
  investmentHistory : Option (List InvestmentRecord)
  totalInvested : Option ℚ
deriving DecidableEq, Repr

structure Investor where
  investorProfile : InvestorProfile
  location : Option Location
  communityScore : Option ℚ
deriving DecidableEq, Repr

/-- `investmentHistory.map(inv => inv.startupId?.sector).filter(Boolean)`:
`filter(Boolean)` drops both `undefined` entries and empty strings. -/
def pastSectors (history : List InvestmentRecord) : List String :=
  ((history.map (fun inv => inv.startupId.map (fun p => p.sector))).filterMap id).filter
    (fun s => decide (s ≠ ""))

def calculateSectorScore (startup : Startup) (investor : Investor) : Except JSError ℚ :=
  let preferredSectors := investor.investorProfile.preferredSectors.getD []
  if startup.sector ∈ preferredSectors then
    Except.ok 1
  else
    match investor.investorProfile.investmentHistory with
    | none => Except.error JSError.typeError
    | some history =>
      if startup.sector ∈ pastSectors history then Except.ok (8/10) else Except.ok (3/10)

/-- Inner `stagePreferences.conservative` table. -/
def conservativeStageTable (stage : String) : Option ℚ :=
  if stage = "growth" then some 1
  else if stage = "expansion" then some (9/10)
  else if stage = "early-revenue" then some (7/10)
  else if stage = "mvp" then some (4/10)
  else if stage = "prototype" then some (2/10)
  else if stage = "idea" then some (1/10)
  else none

/-- Inner `stagePreferences.moderate` table. -/
def moderateStageTable (stage : String) : Option ℚ :=
  if stage = "early-revenue" then some 1
  else if stage = "mvp" then some (9/10)
  else if stage = "growth" then some (8/10)
  else if stage = "prototype" then some (6/10)
  else if stage = "expansion" then some (7/10)
  else if stage = "idea" then some (3/10)
  else none

/-- Inner `stagePreferences.aggressive` table. -/
def aggressiveStageTable (stage : String) : Option ℚ :=
  if stage = "idea" then some 1
  else if stage = "prototype" then some (9/10)
  else if stage = "mvp" then some (8/10)
  else if stage = "early-revenue" then some (6/10)
  else if stage = "growth" then some (4/10)
  else if stage = "expansion" then some (2/10)
  else none

/-- The `stagePreferences` object: outer key `riskTolerance`; an unknown key
yields `undefined` (here `none`), on which the inner indexing throws. -/
def stagePreferences (risk : String) : Option (String → Option ℚ) :=
  if risk = "conservative" then some conservativeStageTable
  else if risk = "moderate" then some moderateStageTable
  else if risk = "aggressive" then some aggressiveStageTable
  else none

/-- The effective risk tolerance: `investor.investorProfile.riskTolerance || 'moderate'`. -/
def effRiskTolerance (investor : Investor) : String :=
  jsOrString investor.investorProfile.riskTolerance "moderate"

def calculateStageScore (startup : Startup) (investor : Investor) : Except JSError ℚ :=
  match stagePreferences (effRiskTolerance investor) with
  | none => Except.error JSError.typeError
  | some tbl => Except.ok (jsOrNum (tbl startup.stage) (1/2))

def globalMarkets : List String :=
  ["United States", "India", "Singapore", "United Kingdom", "Germany"]

def calculateLocationScore (startup : Startup) (investor : Investor) : ℚ :=
  match investor.location, startup.location with
  | some ilo, some slo =>
    if ilo.country = slo.country then
      if ilo.city = slo.city then 1 else 8/10
    else if slo.country ∈ globalMarkets then 6/10
    else 4/10
  | _, _ => 1/2

/-- The effective investor capacity: `investor.investorProfile.investmentCapacity || 0`. -/
def effCapacity (investor : Investor) : ℚ :=
  jsOrNum investor.investorProfile.investmentCapacity 0

/-- The effective minimum investment: `startup.funding.minimumInvestment || 100`. -/
def effMinInvestment (startup : Startup) : ℚ :=
  jsOrNum startup.funding.minimumInvestment 100

def calculateFundingScore (startup : Startup) (investor : Investor) : ℚ :=
  let investorCapacity := effCapacity investor
  let minInvestment := effMinInvestment startup
  if minInvestment > investorCapacity then 1/10
  else
    let idealMin := investorCapacity * (5/100)
    let idealMax := investorCapacity * (20/100)
    if minInvestment ≥ idealMin ∧ minInvestment ≤ idealMax then 1
    else if minInvestment < idealMin then 7/10
    else 1/2

def founderExperience (startup : Startup) : Option String :=
  startup.founder.bind (fun f => f.entrepreneurProfile.bind (fun e => e.experience))

def calculatePerformanceScore (startup : Startup) : ℚ :=
  let founderExp := founderExperience startup
  let expBonus : ℚ :=
    if founderExp = some "serial" then 3/10
    else if founderExp = some "experienced" then 2/10
    else if founderExp = some "first-time" then 1/10
    else 0
  let teamSizeBonus : ℚ :=
    if optGT (startup.metrics.bind (fun m => m.team.bind (fun t => t.size))) 5 then 1/10 else 0
  let teamGrowthBonus : ℚ :=
    if optGT (startup.metrics.bind (fun m => m.team.bind (fun t => t.growth))) 0 then 1/10 else 0
  let revenueBonus : ℚ :=
    if optGT (startup.metrics.bind (fun m => m.revenue.bind (fun r => r.monthly))) 0 then 2/10 else 0
  let revenueGrowthBonus : ℚ :=
    if optGT (startup.metrics.bind (fun m => m.revenue.bind (fun r => r.growth))) 20 then 2/10 else 0
  let usersBonus : ℚ :=
    if optGT (startup.metrics.bind (fun m => m.users.bind (fun u => u.total))) 1000 then 1/10 else 0
  let usersGrowthBonus : ℚ :=
    if optGT (startup.metrics.bind (fun m => m.users.bind (fun u => u.growth))) 10 then 1/10 else 0
  min (1/2 + expBonus + teamSizeBonus + teamGrowthBonus + revenueBonus + revenueGrowthBonus
    + usersBonus + usersGrowthBonus) 1

def calculateSocialProofScore (startup : Startup) : Except JSError ℚ :=
  match startup.engagement with
  | none => Except.error JSError.typeError
  | some engagement =>
    let score := min (jsOrNum engagement.likes 0 / 100) (3/10)
      + min (jsOrNum engagement.views 0 / 1000) (3/10)
      + min (jsOrNum engagement.bookmarks 0 / 50) (2/10)
      + min (jsOrNum startup.funding.investorCount 0 / 10) (2/10)
    Except.ok (min score 1)

def calculateStartupScore (startup : Startup) (investor : Investor) : Except JSError ℚ :=
  match calculateSectorScore startup investor with
  | Except.error e => Except.error e
  | Except.ok sectorScore =>
    match calculateStageScore startup investor with
    | Except.error e => Except.error e
    | Except.ok stageScore =>
      let locationScore := calculateLocationScore startup investor
      let fundingScore := calculateFundingScore startup investor
      let performanceScore := calculatePerformanceScore startup
      match calculateSocialProofScore startup with
      | Except.error e => Except.error e
      | Except.ok socialScore =>
        let totalScore := sectorScore * (25/100) + stageScore * (20/100)
          + locationScore * (15/100) + fundingScore * (20/100)
          + performanceScore * (15/100) + socialScore * (5/100)
        Except.ok (min (max (totalScore * 100) 0) 100)

/-- `calculateStartupScore` as invoked with possibly-null arguments
(the spec calls this operation `scoreStartupForInvestor`).  A null investor
throws on `investor.investorProfile.preferredSectors`, a null startup on
`startup.sector` - both plain `TypeError`s. -/
def scoreStartupForInvestor (startup : Option Startup) (investor : Option Investor) :
    Except JSError ℚ :=
  match startup, investor with
  | some s, some i => calculateStartupScore s i
  | _, _ => Except.error JSError.typeError

def calculateCapacityScore (investor : Investor) (startup : Startup) : ℚ :=
  let capacity := effCapacity investor
  let minInvestment := effMinInvestment startup
  if capacity < minInvestment then 0
  else if capacity ≥ minInvestment * 10 then 1
  else capacity / (minInvestment * 10)

/-- The `riskMatrix` object of `calculateRiskScore`. -/
def riskMatrix (risk : String) : Option (String → Option ℚ) :=
  if risk = "conservative" then
    some (fun stage =>
      if stage = "idea" then some (1/10)
      else if stage = "prototype" then some (3/10)
      else if stage = "mvp" then some (5/10)
      else if stage = "early-revenue" then some (8/10)
      else if stage = "growth" then some 1
      else if stage = "expansion" then some 1
      else none)
  else if risk = "moderate" then
    some (fun stage =>
      if stage = "idea" then some (3/10)
      else if stage = "prototype" then some (5/10)
      else if stage = "mvp" then some (7/10)
      else if stage = "early-revenue" then some 1
      else if stage = "growth" then some (9/10)
      else if stage = "expansion" then some (8/10)
      else none)
  else if risk = "aggressive" then
    some (fun stage =>
      if stage = "idea" then some 1
      else if stage = "prototype" then some (9/10)
      else if stage = "mvp" then some (8/10)
      else if stage = "early-revenue" then some (7/10)
      else if stage = "growth" then some (6/10)
      else if stage = "expansion" then some (5/10)
      else none)
  else none

def calculateRiskScore (investor : Investor) (startup : Startup) : Except JSError ℚ :=
  match riskMatrix (effRiskTolerance investor) with
  | none => Except.error JSError.typeError
  | some tbl => Except.ok (jsOrNum (tbl startup.stage) (1/2))

def calculateInvestmentPatternScore (investor : Investor) (startup : Startup) : ℚ :=
  let investmentHistory := investor.investorProfile.investmentHistory.getD []
  if investmentHistory.length = 0 then 1/2
  else
    let avgInvestment :=
      (investmentHistory.map (fun inv => jsOrNum inv.amount 0)).sum / investmentHistory.length
    let ratio := effMinInvestment startup / avgInvestment
    if ratio ≥ 1/2 ∧ ratio ≤ 2 then 1
    else if ratio ≥ 1/5 ∧ ratio ≤ 5 then 7/10
    else 4/10

def timeZoneRegions : List (List String) :=
  [["United States", "Canada", "Brazil", "Mexico"],
   ["United Kingdom", "Germany", "France", "Netherlands"],
   ["India", "Singapore", "Japan", "China"],
   ["UAE", "Saudi Arabia", "Egypt", "Israel"]]

def checkTimeZoneCompatibility (country1 country2 : String) : Bool :=
  timeZoneRegions.any (fun region => country1 ∈ region ∧ country2 ∈ region)

def calculateGeographicScore (investor : Investor) (startup : Startup) : ℚ :=
  match investor.location, startup.location with
  | some ilo, some slo =>
    if ilo.country = slo.country then
      if ilo.city = slo.city then 1 else 8/10
    else if checkTimeZoneCompatibility ilo.country slo.country then 6/10
    else 4/10
  | _, _ => 1/2

def calculateInvestorMatchScore (investor : Investor) (startup : Startup) : Except JSError ℚ :=
  match investor.investorProfile.preferredSectors with
  | none => Except.error JSError.typeError
  | some prefs =>
    let sectorInterest : ℚ := if startup.sector ∈ prefs then 1 else 3/10
    let capacityScore := calculateCapacityScore investor startup
    match calculateRiskScore investor startup with
    | Except.error e => Except.error e
    | Except.ok riskScore =>
      let patternScore := calculateInvestmentPatternScore investor startup
      let geoScore := calculateGeographicScore investor startup
      let totalScore := sectorInterest * (30/100) + capacityScore * (25/100)
        + riskScore * (20/100) + patternScore * (15/100) + geoScore * (10/100)
      Except.ok (min (max (totalScore * 100) 0) 100)

def generateRecommendationReasons (startup : Startup) (investor : Investor) (score : ℚ) :
    Except JSError (List String) :=
  let preferredSectors := investor.investorProfile.preferredSectors.getD []
  let r1 : List String :=
    if startup.sector ∈ preferredSectors then
      ["Matches your preferred " ++ startup.sector ++ " sector"] else []
  let r2 : List String :=
    if investor.investorProfile.riskTolerance = some ("aggressive")
        ∧ startup.stage ∈ ["idea", "prototype"] then
      ["Early-stage opportunity matching your risk appetite"] else []
  let r3 : List String :=
    if (investor.location.map (fun l => l.country)) = (startup.location.map (fun l => l.country)) then
      ["Located in your region"] else []
  match startup.engagement with
  | none => Except.error JSError.typeError
  | some engagement =>
    let r4 : List String :=
      if optGT engagement.likes 50 then ["High community engagement"] else []
    let r5 : List String :=
      if founderExperience startup = some ("serial") then
        ["Serial entrepreneur with proven track record"] else []
    let r6 : List String :=
      if optGT (startup.metrics.bind (fun m => m.revenue.bind (fun r => r.monthly))) 0 then
        ["Revenue-generating startup"] else []
    let r7 : List String :=
      if score > 80 then ["🔥 Top AI match score"]
      else if score > 60 then ["✨ Strong AI match score"]
      else []
    Except.ok ((r1 ++ r2 ++ r3 ++ r4 ++ r5 ++ r6 ++ r7).take 3)

def generateInvestorMatchReasons (investor : Investor) (startup : Startup) (score : ℚ) :
    Except JSError (List String) :=
  match investor.investorProfile.preferredSectors with
  | none => Except.error JSError.typeError
  | some prefs =>
    let r1 : List String :=
      if startup.sector ∈ prefs then
        ["Actively invests in " ++ startup.sector] else []
    let r2 : List String :=
      if optGT investor.investorProfile.totalInvested 10000 then
        ["Experienced investor with significant portfolio"] else []
    let r3 : List String :=
      if (investor.location.map (fun l => l.country)) = (startup.location.map (fun l => l.country)) then
        ["Local investor who understands your market"] else []
    let r4 : List String :=
      if optGT investor.communityScore 50 then
        ["Active community member with high engagement"] else []
    let r5 : List String :=
      if score > 80 then ["🎯 Perfect match for your startup"] else []
    Except.ok ((r1 ++ r2 ++ r3 ++ r4 ++ r5).take 3)

structure ScoredStartup where
  startup : Startup
  aiScore : ℚ
  reasons : List String
deriving DecidableEq, Repr

/-- Per-item scoring step of `getStartupRecommendationsForInvestor`. -/
def scoreOne (investor : Investor) (startup : Startup) : Except JSError ScoredStartup :=
  match calculateStartupScore startup investor with
  | Except.error e => Except.error e
  | Except.ok score =>
    match generateRecommendationReasons startup investor score with
    | Except.error e => Except.error e
    | Except.ok reasons => Except.ok ⟨startup, score, reasons⟩

def scoreAll (investor : Investor) : List Startup → Except JSError (List ScoredStartup)
  | [] => Except.ok []
  | s :: rest =>
    match scoreOne investor s with
    | Except.error e => Except.error e
    | Except.ok r =>
      match scoreAll investor rest with
      | Except.error e => Except.error e
      | Except.ok rs => Except.ok (r :: rs)

/-- Stable insertion of an element into a list sorted descending by `aiScore`:
the element goes before the first entry whose score is `≤` its own, matching
the stable JavaScript `sort((a, b) => b.aiScore - a.aiScore)` when the
element originally preceded the list it is inserted into. -/
def insertByScoreDesc (x : ScoredStartup) : List ScoredStartup → List ScoredStartup
  | [] => [x]
  | y :: ys => if y.aiScore ≤ x.aiScore then x :: y :: ys else y :: insertByScoreDesc x ys

def sortByScoreDesc (l : List ScoredStartup) : List ScoredStartup :=
  l.foldr insertByScoreDesc []

/-- The ranking pipeline of `getStartupRecommendationsForInvestor`: score every
candidate, sort descending by score (stable), keep the first `limit`. -/
def getStartupRecommendationsForInvestor (investor : Investor) (startups : List Startup)
    (limit : ℕ) : Except JSError (List ScoredStartup) :=
  match scoreAll investor startups with
  | Except.error e => Except.error e
  | Except.ok scored => Except.ok ((sortByScoreDesc scored).take limit)

/-! Concrete sample records used by witnesses and counterexamples. -/

def sampleInvestor : Investor :=
  { investorProfile :=
      { preferredSectors := some ["AI"]
        riskTolerance := some ("aggressive")
        investmentCapacity := some 10000
        investmentHistory := some [{ startupId := some { sector := "Health" }, amount := some 400 }]
        totalInvested := some 20000 }
    location := some { city := "Austin", country := "United States" }
    communityScore := some 80 }

def sampleStartup : Startup :=
  { sector := "AI"
    stage := "idea"
    location := some { city := "Austin", country := "United States" }
    funding := { targetAmount := 50000, minimumInvestment := some 500,
                 currentAmount := some 0, investorCount := some 2 }
    engagement := some { likes := some 60, views := some 500, bookmarks := some 10 }
    metrics := some { revenue := some { monthly := some 100, growth := some 30 }
                      users := some { total := some 2000, growth := some 15 }
                      team := some { size := some 6, growth := some 2 } }
    founder := some { entrepreneurProfile := some { experience := some ("serial") }
                      communityScore := some 60 } }

/-- A weak candidate: non-preferred sector, late stage for an aggressive
investor, no location, minimum investment above the ideal band. -/
def lowStartup : Startup :=
  { sector := "Climate"
    stage := "expansion"
    location := none
    funding := { targetAmount := 50000, minimumInvestment := some 9000,
                 currentAmount := some 0, investorCount := some 0 }
    engagement := some { likes := none, views := none, bookmarks := none }
    metrics := none
    founder := none }

/-- A candidate whose sector is not preferred by `sampleInvestor` but does
appear in its past investment history. -/
def historyStartup : Startup :=
  { sector := "Health"
    stage := "mvp"
    location := none
    funding := { targetAmount := 50000, minimumInvestment := some 500,
                 currentAmount := some 0, investorCount := some 0 }
    engagement := some { likes := some 10, views := some 10, bookmarks := some 1 }
    metrics := none
    founder := none }

/-- `sampleStartup` with the engagement counters object missing entirely. -/
def noEngagementStartup : Startup :=
  { sampleStartup with engagement := none }

/-- `sampleInvestor` with the investment-history list missing entirely and a
preferred-sector list that does not contain `"AI"`. -/
def noHistoryInvestor : Investor :=
  { sampleInvestor with
      investorProfile :=
        { sampleInvestor.investorProfile with
            preferredSectors := some ["FinTech"]
            investmentHistory := none } }

/-- `sampleInvestor` with capacity 100, priced out of `sampleStartup`
(minimum investment 500). -/
def lowCapacityInvestor : Investor :=
  { sampleInvestor with
      investorProfile :=
        { sampleInvestor.investorProfile with investmentCapacity := some 100 } }

/-- Investor located in a city that shares its name with `homonymStartup`'s
city but lies in a different country. -/
def homonymInvestor : Investor :=
  { sampleInvestor with location := some { city := "Lisbon", country := "Portugal" } }

def homonymStartup : Startup :=
  { sampleStartup with location := some { city := "Lisbon", country := "France" } }

/-! Helper lemmas shared by the claim proofs. -/

theorem clampBounds (x : ℚ) : 0 ≤ min (max x 0) 100 ∧ min (max x 0) 100 ≤ 100 :=
  ⟨le_min (le_max_right x 0) (by norm_num), min_le_right _ _⟩

/-- Claim C1: for every valid (startup, investor) pair, the overall
compatibility score returned by `calculateStartupScore` (startup-to-investor)
and `calculateInvestorMatchScore` (investor-to-startup) satisfies
`0 ≤ overallScore ≤ 100`: the weighted sum times 100 is clamped to [0, 100]
regardless of the intermediate value of the weighted sum. -/
theorem overallScore_in_range (s : Startup) (i : Investor) :
    (∀ v : ℚ, calculateStartupScore s i = Except.ok v → 0 ≤ v ∧ v ≤ 100)
    ∧ (∀ w : ℚ, calculateInvestorMatchScore i s = Except.ok w → 0 ≤ w ∧ w ≤ 100) := by
  constructor
  · intro v h
    simp only [calculateStartupScore] at h
    split at h
    · exact Except.noConfusion h
    · split at h
      · exact Except.noConfusion h
      · split at h
        · exact Except.noConfusion h
        · rw [← Except.ok.inj h]
          exact clampBounds _
  · intro w h
    simp only [calculateInvestorMatchScore] at h
    split at h
    · exact Except.noConfusion h
    · split at h
      · exact Except.noConfusion h
      · rw [← Except.ok.inj h]
        exact clampBounds _

/-- Witness for C1 at `(sampleStartup, sampleInvestor)`: both directions
return `Except.ok 100`, and 100 lies within the claimed bounds. -/
theorem overallScore_in_range_witness :
    ((0:ℚ) ≤ 100 ∧ (100:ℚ) ≤ 100) ∧ ((0:ℚ) ≤ 100 ∧ (100:ℚ) ≤ 100) :=
  ⟨(overallScore_in_range sampleStartup sampleInvestor).1 100 (by
      simp [calculateStartupScore, calculateSectorScore, calculateStageScore,
        calculateLocationScore, calculateFundingScore, calculatePerformanceScore,
        calculateSocialProofScore, effRiskTolerance, effCapacity, effMinInvestment,
        stagePreferences, aggressiveStageTable, globalMarkets, founderExperience,
        jsOrNum, jsOrString, optGT, sampleStartup, sampleInvestor, pastSectors]
      norm_num),
   (overallScore_in_range sampleStartup sampleInvestor).2 100 (by
      simp [calculateInvestorMatchScore, calculateCapacityScore, calculateRiskScore,
        calculateInvestmentPatternScore, calculateGeographicScore, checkTimeZoneCompatibility,
        timeZoneRegions, riskMatrix, effRiskTolerance, effCapacity, effMinInvestment,
        jsOrNum, jsOrString, optGT, sampleStartup, sampleInvestor]
      norm_num)⟩

/-- Claim C10: `calculatePerformanceScore` always lies in [0.5, 1.0]: it
starts from a base of 0.5, adds only non-negative bonuses, and is capped at
1.0, so the past-performance factor never drops below the neutral midpoint. -/
theorem calculatePerformanceScore_in_range (s : Startup) :
    1/2 ≤ calculatePerformanceScore s ∧ calculatePerformanceScore s ≤ 1 := by
  simp only [calculatePerformanceScore]
  refine ⟨le_min ?_ (by norm_num), min_le_right _ _⟩
  have h1 : (0:ℚ) ≤
      if founderExperience s = some ("serial") then 3/10
      else if founderExperience s = some ("experienced") then 2/10
      else if founderExperience s = some ("first-time") then 1/10
      else 0 := by
    split_ifs <;> norm_num
  have h2 : ∀ (b : Bool) (q : ℚ), 0 ≤ q → (0:ℚ) ≤ if b = true then q else 0 := by
    intro b q hq
    split_ifs <;> simp [hq]
  have h3 := h2 (optGT (s.metrics.bind fun m => m.team.bind fun t => t.size) 5) (1/10) (by norm_num)
  have h4 := h2 (optGT (s.metrics.bind fun m => m.team.bind fun t => t.growth) 0) (1/10) (by norm_num)
  have h5 := h2 (optGT (s.metrics.bind fun m => m.revenue.bind fun r => r.monthly) 0) (2/10) (by norm_num)
  have h6 := h2 (optGT (s.metrics.bind fun m => m.revenue.bind fun r => r.growth) 20) (2/10) (by norm_num)
  have h7 := h2 (optGT (s.metrics.bind fun m => m.users.bind fun u => u.total) 1000) (1/10) (by norm_num)
  have h8 := h2 (optGT (s.metrics.bind fun m => m.users.bind fun u => u.growth) 10) (1/10) (by norm_num)
  linarith

/-- Claim C4: the sector sub-score is 1.0 when the startup's sector is among
the investor's preferred sectors, 0.8 when it is not preferred but appears
among the sectors of the investor's past investment history, and 0.3
otherwise; consequently exact-match ≥ history-match ≥ no-match. -/
theorem calculateSectorScore_spec (s : Startup) (i : Investor) :
    (s.sector ∈ i.investorProfile.preferredSectors.getD [] →
      calculateSectorScore s i = Except.ok 1)
    ∧ (∀ history, i.investorProfile.investmentHistory = some history →
        s.sector ∉ i.investorProfile.preferredSectors.getD [] →
        s.sector ∈ pastSectors history →
        calculateSectorScore s i = Except.ok (8/10))
    ∧ (∀ history, i.investorProfile.investmentHistory = some history →
        s.sector ∉ i.investorProfile.preferredSectors.getD [] →
        s.sector ∉ pastSectors history →
        calculateSectorScore s i = Except.ok (3/10))
    ∧ ((3:ℚ)/10 ≤ 8/10 ∧ (8:ℚ)/10 ≤ 1) := by
  refine ⟨fun hp => ?_, fun history hh hnp hin => ?_, fun history hh hnp hnin => ?_, by norm_num⟩
  · simp only [calculateSectorScore]
    rw [if_pos hp]
  · simp only [calculateSectorScore, hh]
    rw [if_neg hnp, if_pos hin]
  · simp only [calculateSectorScore, hh]
    rw [if_neg hnp, if_neg hnin]

/-- Witness for C4: `sampleInvestor` prefers AI and has Health in its
investment history, so `sampleStartup` (AI) scores 1.0 and `historyStartup`
(Health) scores 0.8. -/
theorem calculateSectorScore_spec_witness :
    calculateSectorScore sampleStartup sampleInvestor = Except.ok 1
    ∧ calculateSectorScore historyStartup sampleInvestor = Except.ok (8/10) := by
  constructor
  · exact (calculateSectorScore_spec sampleStartup sampleInvestor).1 (by
      simp [sampleStartup, sampleInvestor])
  · exact (calculateSectorScore_spec historyStartup sampleInvestor).2.1 _ rfl
      (by simp [historyStartup, sampleInvestor])
      (by simp [historyStartup, sampleInvestor, pastSectors])

/-- Claim C5: the stage-fit sub-score is a lookup in a table keyed by
(riskTolerance, stage); the concrete table values show that conservative
favors late stages (growth 1.0, expansion 0.9, down to idea 0.1), aggressive
favors early stages (idea 1.0 down to expansion 0.2), and moderate favors
early-revenue/mvp (1.0 and 0.9); a (riskTolerance, stage) combination absent
from the table yields the default 0.5. -/
theorem calculateStageScore_spec (s : Startup) (i : Investor) (tbl : String → Option ℚ)
    (htbl : stagePreferences (effRiskTolerance i) = some tbl) :
    calculateStageScore s i = Except.ok (jsOrNum (tbl s.stage) (1/2))
    ∧ (tbl s.stage = none → calculateStageScore s i = Except.ok (1/2))
    ∧ (effRiskTolerance i = "conservative" →
        tbl "growth" = some 1 ∧ tbl "expansion" = some (9/10) ∧ tbl "early-revenue" = some (7/10)
        ∧ tbl "mvp" = some (4/10) ∧ tbl "prototype" = some (2/10) ∧ tbl "idea" = some (1/10))
    ∧ (effRiskTolerance i = "moderate" →
        tbl "early-revenue" = some 1 ∧ tbl "mvp" = some (9/10) ∧ tbl "growth" = some (8/10)
        ∧ tbl "expansion" = some (7/10) ∧ tbl "prototype" = some (6/10) ∧ tbl "idea" = some (3/10))
    ∧ (effRiskTolerance i = "aggressive" →
        tbl "idea" = some 1 ∧ tbl "prototype" = some (9/10) ∧ tbl "mvp" = some (8/10)
        ∧ tbl "early-revenue" = some (6/10) ∧ tbl "growth" = some (4/10)
        ∧ tbl "expansion" = some (2/10)) := by
  have hcalc : calculateStageScore s i = Except.ok (jsOrNum (tbl s.stage) (1/2)) := by
    simp only [calculateStageScore, htbl]
  refine ⟨hcalc, fun hn => by rw [hcalc, hn]; rfl, fun hc => ?_, fun hm => ?_, fun ha => ?_⟩
  · rw [hc] at htbl
    simp only [stagePreferences] at htbl
    simp at htbl
    rw [← htbl]
    refine ⟨by simp [conservativeStageTable], by simp [conservativeStageTable],
      by simp [conservativeStageTable], by simp [conservativeStageTable],
      by simp [conservativeStageTable], by simp [conservativeStageTable]⟩
  · rw [hm] at htbl
    simp only [stagePreferences] at htbl
    simp at htbl
    rw [← htbl]
    refine ⟨by simp [moderateStageTable], by simp [moderateStageTable],
      by simp [moderateStageTable], by simp [moderateStageTable],
      by simp [moderateStageTable], by simp [moderateStageTable]⟩
  · rw [ha] at htbl
    simp only [stagePreferences] at htbl
    simp at htbl
    rw [← htbl]
    refine ⟨by simp [aggressiveStageTable], by simp [aggressiveStageTable],
      by simp [aggressiveStageTable], by simp [aggressiveStageTable],
      by simp [aggressiveStageTable], by simp [aggressiveStageTable]⟩

/-- Witness for C5: the aggressive `sampleInvestor` paired with the
idea-stage `sampleStartup` hits the table entry 1.0. -/
theorem calculateStageScore_spec_witness :
    calculateStageScore sampleStartup sampleInvestor
      = Except.ok (jsOrNum (aggressiveStageTable "idea") (1/2))
    ∧ aggressiveStageTable "idea" = some 1 := by
  constructor
  · exact (calculateStageScore_spec sampleStartup sampleInvestor aggressiveStageTable
      (by simp [stagePreferences, effRiskTolerance, jsOrString, sampleInvestor])).1
  · simp [aggressiveStageTable]

/-- Counterexample to C6 as stated: `homonymInvestor` (Lisbon, Portugal) and
`homonymStartup` (Lisbon, France) share the same city name, yet the location
sub-score is 0.4, not 1.0 — the code checks country equality first and awards
1.0 only when both country AND city match. -/
theorem calculateLocationScore_sameCity_counterexample :
    homonymInvestor.location.map (fun l => l.city)
      = homonymStartup.location.map (fun l => l.city)
    ∧ calculateLocationScore homonymStartup homonymInvestor ≠ 1 := by
  constructor
  · rfl
  · simp [calculateLocationScore, homonymInvestor, homonymStartup, sampleInvestor,
      sampleStartup, globalMarkets]
    norm_num

/-- Claim C6 (amended): with both locations present, the location sub-score is
1.0 when both the countries and the cities match, 0.8 when the countries match
but not the cities, 0.6 when the countries differ and the startup's country is
in the fixed major-market allowlist, and 0.4 otherwise; when either location
is missing the sub-score is 0.5. -/
theorem calculateLocationScore_spec :
    (∀ (s : Startup) (i : Investor) (ilo slo : Location),
        i.location = some ilo → s.location = some slo →
        (ilo.country = slo.country → ilo.city = slo.city → calculateLocationScore s i = 1)
        ∧ (ilo.country = slo.country → ilo.city ≠ slo.city → calculateLocationScore s i = 8/10)
        ∧ (ilo.country ≠ slo.country → slo.country ∈ globalMarkets →
            calculateLocationScore s i = 6/10)
        ∧ (ilo.country ≠ slo.country → slo.country ∉ globalMarkets →
            calculateLocationScore s i = 4/10))
    ∧ (∀ (s : Startup) (i : Investor), i.location = none ∨ s.location = none →
        calculateLocationScore s i = 1/2) := by
  constructor
  · intro s i ilo slo hi hs
    simp only [calculateLocationScore, hi, hs]
    refine ⟨fun hc hcity => ?_, fun hc hcity => ?_, fun hc hm => ?_, fun hc hm => ?_⟩
    · rw [if_pos hc, if_pos hcity]
    · rw [if_pos hc, if_neg hcity]
    · rw [if_neg hc, if_pos hm]
    · rw [if_neg hc, if_neg hm]
  · intro s i h
    rcases h with h | h
    · cases hs2 : s.location <;> simp [calculateLocationScore, h, hs2]
    · cases hi2 : i.location <;> simp [calculateLocationScore, h, hi2]

/-- Witness for the amended C6: `sampleInvestor` and `sampleStartup` share
city and country (score 1.0), while `lowStartup` has no location (score 0.5). -/
theorem calculateLocationScore_spec_witness :
    calculateLocationScore sampleStartup sampleInvestor = 1
    ∧ calculateLocationScore lowStartup sampleInvestor = 1/2 :=
  ⟨(calculateLocationScore_spec.1 sampleStartup sampleInvestor _ _ rfl rfl).1 rfl rfl,
   calculateLocationScore_spec.2 lowStartup sampleInvestor (Or.inr rfl)⟩

/-- Claim C7: with a present, non-zero minimum investment `m`, the funding-fit
sub-score is 0.1 when the investor capacity is below `m` (priced out), 1.0
when `m` lies within the [5%, 20%] band of capacity, 0.7 when `m` is below
that band (but affordable), 0.5 when above it (but affordable); in particular
raising the capacity from below `m` into the band strictly increases the
sub-score from 0.1 to 1.0. -/
theorem calculateFundingScore_spec (s : Startup) (m : ℚ)
    (hm : s.funding.minimumInvestment = some m) (hm0 : m ≠ 0) :
    (∀ i : Investor, effCapacity i < m → calculateFundingScore s i = 1/10)
    ∧ (∀ i : Investor, effCapacity i * (5/100) ≤ m → m ≤ effCapacity i * (20/100) →
        calculateFundingScore s i = 1)
    ∧ (∀ i : Investor, m ≤ effCapacity i → m < effCapacity i * (5/100) →
        calculateFundingScore s i = 7/10)
    ∧ (∀ i : Investor, m ≤ effCapacity i → effCapacity i * (20/100) < m →
        calculateFundingScore s i = 1/2)
    ∧ (∀ i1 i2 : Investor, effCapacity i1 < m →
        effCapacity i2 * (5/100) ≤ m → m ≤ effCapacity i2 * (20/100) →
        calculateFundingScore s i1 < calculateFundingScore s i2) := by
  have hmin : effMinInvestment s = m := by
    simp only [effMinInvestment, jsOrNum, hm]
    rw [if_neg hm0]
  have key : ∀ i : Investor, calculateFundingScore s i =
      if effCapacity i < m then 1/10
      else if effCapacity i * (5/100) ≤ m ∧ m ≤ effCapacity i * (20/100) then 1
      else if m < effCapacity i * (5/100) then 7/10 else 1/2 := by
    intro i
    simp only [calculateFundingScore, hmin, gt_iff_lt, ge_iff_le]
  have band_affordable : ∀ i : Investor,
      effCapacity i * (5/100) ≤ m → m ≤ effCapacity i * (20/100) → ¬ effCapacity i < m := by
    intro i h5 h20
    have hcap : 0 ≤ effCapacity i := by nlinarith
    intro hlt
    nlinarith
  refine ⟨fun i h => ?_, fun i h5 h20 => ?_, fun i hle hlt => ?_, fun i hle hgt => ?_,
    fun i1 i2 h1 h5 h20 => ?_⟩
  · rw [key i, if_pos h]
  · rw [key i, if_neg (band_affordable i h5 h20), if_pos ⟨h5, h20⟩]
  · rw [key i, if_neg (not_lt.mpr hle)]
    rw [if_neg (fun hb : _ ∧ _ => absurd hb.1 (not_le.mpr hlt)), if_pos hlt]
  · have h5 : ¬ m < effCapacity i * (5/100) := by nlinarith
    rw [key i, if_neg (not_lt.mpr hle)]
    rw [if_neg (fun hb : _ ∧ _ => absurd hb.2 (not_le.mpr hgt)), if_neg h5]
  · rw [key i1, if_pos h1, key i2, if_neg (band_affordable i2 h5 h20), if_pos ⟨h5, h20⟩]
    norm_num

/-- Witness for C7 at `sampleStartup` (minimum investment 500):
`lowCapacityInvestor` (capacity 100) is priced out at 0.1;
`sampleInvestor` (capacity 10000, band [500, 2000]) scores 1.0. -/
theorem calculateFundingScore_spec_witness :
    calculateFundingScore sampleStartup lowCapacityInvestor = 1/10
    ∧ calculateFundingScore sampleStartup sampleInvestor = 1
    ∧ calculateFundingScore sampleStartup lowCapacityInvestor
        < calculateFundingScore sampleStartup sampleInvestor := by
  have h := calculateFundingScore_spec sampleStartup 500 rfl (by norm_num)
  have hlow : effCapacity lowCapacityInvestor = 100 := by
    simp [effCapacity, jsOrNum, lowCapacityInvestor, sampleInvestor]
  have hsample : effCapacity sampleInvestor = 10000 := by
    simp [effCapacity, jsOrNum, sampleInvestor]
  refine ⟨h.1 lowCapacityInvestor ?_, h.2.1 sampleInvestor ?_ ?_,
    h.2.2.2.2 lowCapacityInvestor sampleInvestor ?_ ?_ ?_⟩
  · rw [hlow]; norm_num
  · rw [hsample]; norm_num
  · rw [hsample]; norm_num
  · rw [hlow]; norm_num
  · rw [hsample]; norm_num
  · rw [hsample]; norm_num

/-! Helper lemmas: the scoring pipeline returns a value whenever the fields
the code reads without a guard are present. -/

theorem stagePreferences_isSome (i : Investor)
    (h : effRiskTolerance i ∈ (["conservative", "moderate", "aggressive"] : List String)) :
    ∃ tbl, stagePreferences (effRiskTolerance i) = some tbl := by
  simp only [List.mem_cons, List.not_mem_nil, or_false] at h
  rcases h with h | h | h <;> rw [h] <;> simp [stagePreferences]

theorem calculateSectorScore_isOk (s : Startup) (i : Investor)
    (history : List InvestmentRecord)
    (hh : i.investorProfile.investmentHistory = some history) :
    ∃ v, calculateSectorScore s i = Except.ok v := by
  simp only [calculateSectorScore, hh]
  split_ifs <;> exact ⟨_, rfl⟩

theorem calculateSocialProofScore_isOk (s : Startup) (e : Engagement)
    (he : s.engagement = some e) :
    ∃ v, calculateSocialProofScore s = Except.ok v := by
  simp only [calculateSocialProofScore, he]
  exact ⟨_, rfl⟩

theorem calculateStartupScore_isOk (s : Startup) (i : Investor) (e : Engagement)
    (history : List InvestmentRecord)
    (he : s.engagement = some e)
    (hh : i.investorProfile.investmentHistory = some history)
    (hr : effRiskTolerance i ∈ (["conservative", "moderate", "aggressive"] : List String)) :
    ∃ q, calculateStartupScore s i = Except.ok q := by
  obtain ⟨v1, h1⟩ := calculateSectorScore_isOk s i history hh
  obtain ⟨tbl, ht⟩ := stagePreferences_isSome i hr
  have h2 : calculateStageScore s i = Except.ok (jsOrNum (tbl s.stage) (1/2)) := by
    simp only [calculateStageScore, ht]
  obtain ⟨v3, h3⟩ := calculateSocialProofScore_isOk s e he
  simp only [calculateStartupScore, h1, h2, h3]
  exact ⟨_, rfl⟩

theorem generateRecommendationReasons_isOk (s : Startup) (i : Investor) (sc : ℚ)
    (e : Engagement) (he : s.engagement = some e) :
    ∃ l, generateRecommendationReasons s i sc = Except.ok l := by
  simp only [generateRecommendationReasons, he]
  exact ⟨_, rfl⟩

/-- Counterexample to C2 as stated: a null startup makes the scoring
operation throw the generic `TypeError` of a null property access, not the
`InvalidInputError` the spec names (no such error class exists in the
repository). -/
theorem scoreStartupForInvestor_not_invalidInputError :
    scoreStartupForInvestor none (some sampleInvestor) = Except.error JSError.typeError
    ∧ scoreStartupForInvestor none (some sampleInvestor)
        ≠ Except.error JSError.invalidInputError :=
  ⟨rfl, by simp [scoreStartupForInvestor]⟩

/-- Claim C2 (amended): passing a null startup or null investor to the
pair-scoring operation throws a generic `TypeError` (the repository defines
no `InvalidInputError` class) and produces no partial result; a non-null pair
whose unguarded optional reads are present — investment history, engagement,
and a recognised or absent risk tolerance — always scores successfully. -/
theorem scoreStartupForInvestor_null_spec :
    (∀ i : Option Investor, scoreStartupForInvestor none i = Except.error JSError.typeError)
    ∧ (∀ s : Startup, scoreStartupForInvestor (some s) none = Except.error JSError.typeError)
    ∧ (∀ (s : Startup) (i : Investor) (e : Engagement) (history : List InvestmentRecord),
        s.engagement = some e → i.investorProfile.investmentHistory = some history →
        effRiskTolerance i ∈ (["conservative", "moderate", "aggressive"] : List String) →
        ∃ q : ℚ, scoreStartupForInvestor (some s) (some i) = Except.ok q) := by
  refine ⟨fun i => ?_, fun s => rfl, fun s i e history he hh hr => ?_⟩
  · cases i <;> rfl
  · exact calculateStartupScore_isOk s i e history he hh hr

/-- Witness for the amended C2 at `(sampleStartup, sampleInvestor)`. -/
theorem scoreStartupForInvestor_null_spec_witness :
    ∃ q : ℚ, scoreStartupForInvestor (some sampleStartup) (some sampleInvestor) = Except.ok q :=
  scoreStartupForInvestor_null_spec.2.2 sampleStartup sampleInvestor _ _ rfl rfl
    (by simp [effRiskTolerance, jsOrString, sampleInvestor])

/-- Counterexample to C3 as stated: an absent engagement object makes both
reason generation and scoring throw a TypeError, and an absent investment
history makes the sector sub-scorer throw when the sector is not preferred —
these optional fields do not degrade to neutral defaults. -/
theorem missingOptional_throws_counterexample :
    noEngagementStartup.engagement = none
    ∧ generateRecommendationReasons noEngagementStartup sampleInvestor 50
        = Except.error JSError.typeError
    ∧ calculateStartupScore noEngagementStartup sampleInvestor
        = Except.error JSError.typeError
    ∧ noHistoryInvestor.investorProfile.investmentHistory = none
    ∧ calculateSectorScore sampleStartup noHistoryInvestor
        = Except.error JSError.typeError := by
  refine ⟨rfl, ?_, ?_, rfl, ?_⟩
  · simp only [generateRecommendationReasons, noEngagementStartup]
  · simp [calculateStartupScore, calculateSectorScore, calculateStageScore,
      calculateSocialProofScore, stagePreferences, aggressiveStageTable, effRiskTolerance,
      jsOrString, jsOrNum, noEngagementStartup, sampleStartup, sampleInvestor, pastSectors]
  · simp [calculateSectorScore, noHistoryInvestor, sampleStartup, sampleInvestor]

/-- Claim C3 (amended): scoring and reason generation return a value for any
non-null pair whose engagement object and investment-history list are present
(with a recognised or absent risk tolerance); truly guarded optional fields
degrade to neutral defaults — in particular a missing location yields the
mid-range 0.5 location sub-score — and reason generation skips reason lines
for absent data; but an absent engagement object or an absent investment
history (with a non-preferred sector) throws a TypeError instead. -/
theorem scoring_graceful_spec :
    (∀ (s : Startup) (i : Investor) (e : Engagement) (history : List InvestmentRecord),
        s.engagement = some e → i.investorProfile.investmentHistory = some history →
        effRiskTolerance i ∈ (["conservative", "moderate", "aggressive"] : List String) →
        (∃ q, calculateStartupScore s i = Except.ok q)
        ∧ ∀ sc : ℚ, ∃ l, generateRecommendationReasons s i sc = Except.ok l)
    ∧ (∀ (s : Startup) (i : Investor), i.location = none ∨ s.location = none →
        calculateLocationScore s i = 1/2)
    ∧ (∀ (s : Startup) (i : Investor) (sc : ℚ), s.engagement = none →
        generateRecommendationReasons s i sc = Except.error JSError.typeError)
    ∧ (∀ (s : Startup) (i : Investor), i.investorProfile.investmentHistory = none →
        s.sector ∉ i.investorProfile.preferredSectors.getD [] →
        calculateSectorScore s i = Except.error JSError.typeError) := by
  refine ⟨fun s i e history he hh hr =>
      ⟨calculateStartupScore_isOk s i e history he hh hr,
       fun sc => generateRecommendationReasons_isOk s i sc e he⟩,
    fun s i h => ?_, fun s i sc he => ?_, fun s i hh hnp => ?_⟩
  · rcases h with h | h
    · cases hs2 : s.location <;> simp [calculateLocationScore, h, hs2]
    · cases hi2 : i.location <;> simp [calculateLocationScore, h, hi2]
  · simp only [generateRecommendationReasons, he]
  · simp only [calculateSectorScore, hh]
    rw [if_neg hnp]

/-- Witness for the amended C3 at `(historyStartup, sampleInvestor)`. -/
theorem scoring_graceful_spec_witness :
    (∃ q, calculateStartupScore historyStartup sampleInvestor = Except.ok q)
    ∧ (∃ l, generateRecommendationReasons historyStartup sampleInvestor 40 = Except.ok l) := by
  have h := scoring_graceful_spec.1 historyStartup sampleInvestor _ _ rfl rfl
    (by simp [effRiskTolerance, jsOrString, sampleInvestor])
  exact ⟨h.1, h.2 40⟩

/-! Helper lemmas for reason-list membership. -/

theorem mem_ite_singleton {c : Prop} [Decidable c] {a r : String}
    (h : r ∈ if c then [a] else ([] : List String)) : r = a := by
  by_cases hc : c
  · rw [if_pos hc] at h
    exact List.eq_of_mem_singleton h
  · rw [if_neg hc] at h
    exact absurd h (List.not_mem_nil r)

theorem mem_ite_pair {c d : Prop} [Decidable c] [Decidable d] {a b r : String}
    (h : r ∈ if c then [a] else if d then [b] else ([] : List String)) : r = a ∨ r = b := by
  by_cases hc : c
  · rw [if_pos hc] at h
    exact Or.inl (List.eq_of_mem_singleton h)
  · rw [if_neg hc] at h
    exact Or.inr (mem_ite_singleton h)

theorem str_append_ne_empty (a b : String) (hb : b.length ≠ 0) : a ++ b ≠ "" := by
  intro h
  have h2 := congrArg String.length h
  rw [String.length_append] at h2
  have h0 : ("" : String).length = 0 := rfl
  rw [h0] at h2
  omega

/-- Claim C9: whenever reason generation returns, the reasons list has at
most 3 entries and contains no empty string, for both
`generateRecommendationReasons` and `generateInvestorMatchReasons`. -/
theorem reasons_length_and_nonempty :
    (∀ (s : Startup) (i : Investor) (sc : ℚ) (l : List String),
        generateRecommendationReasons s i sc = Except.ok l →
        l.length ≤ 3 ∧ ∀ r ∈ l, r ≠ "")
    ∧ (∀ (i : Investor) (s : Startup) (sc : ℚ) (l : List String),
        generateInvestorMatchReasons i s sc = Except.ok l →
        l.length ≤ 3 ∧ ∀ r ∈ l, r ≠ "") := by
  constructor
  · intro s i sc l h
    cases he : s.engagement with
    | none =>
      simp only [generateRecommendationReasons, he] at h
      exact Except.noConfusion h
    | some e =>
      simp only [generateRecommendationReasons, he] at h
      obtain rfl := (Except.ok.inj h).symm
      refine ⟨List.length_take_le 3 _, fun r hr => ?_⟩
      have hr2 := List.mem_of_mem_take hr
      simp only [List.mem_append] at hr2
      rcases hr2 with ((((((h1 | h2) | h3) | h4) | h5) | h6) | h7)
      · rw [mem_ite_singleton h1]
        exact str_append_ne_empty _ _ (by decide)
      · rw [mem_ite_singleton h2]; decide
      · rw [mem_ite_singleton h3]; decide
      · rw [mem_ite_singleton h4]; decide
      · rw [mem_ite_singleton h5]; decide
      · rw [mem_ite_singleton h6]; decide
      · rcases mem_ite_pair h7 with h7 | h7 <;> rw [h7] <;> decide
  · intro i s sc l h
    cases hp : i.investorProfile.preferredSectors with
    | none =>
      simp only [generateInvestorMatchReasons, hp] at h
      exact Except.noConfusion h
    | some prefs =>
      simp only [generateInvestorMatchReasons, hp] at h
      obtain rfl := (Except.ok.inj h).symm
      refine ⟨List.length_take_le 3 _, fun r hr => ?_⟩
      have hr2 := List.mem_of_mem_take hr
      simp only [List.mem_append] at hr2
      rcases hr2 with ((((h1 | h2) | h3) | h4) | h5)
      · rw [mem_ite_singleton h1]
        intro hcontra
        have h2 := congrArg String.length hcontra
        rw [String.length_append] at h2
        have h0 : ("" : String).length = 0 := rfl
        have h19 : ("Actively invests in " : String).length = 20 := rfl
        rw [h0, h19] at h2
        omega
      · rw [mem_ite_singleton h2]; decide
      · rw [mem_ite_singleton h3]; decide
      · rw [mem_ite_singleton h4]; decide
      · rw [mem_ite_singleton h5]; decide

/-- Witness for C9: concrete reason lists for `(sampleStartup, sampleInvestor)`
in both directions satisfy the bound and non-emptiness. -/
theorem reasons_length_and_nonempty_witness :
    ((["Matches your preferred AI sector",
       "Early-stage opportunity matching your risk appetite",
       "Located in your region"] : List String).length ≤ 3
      ∧ ∀ r ∈ (["Matches your preferred AI sector",
                "Early-stage opportunity matching your risk appetite",
                "Located in your region"] : List String), r ≠ "")
    ∧ ((["Actively invests in AI",
         "Experienced investor with significant portfolio",
         "Local investor who understands your market"] : List String).length ≤ 3
      ∧ ∀ r ∈ (["Actively invests in AI",
                "Experienced investor with significant portfolio",
                "Local investor who understands your market"] : List String), r ≠ "") := by
  constructor
  · refine reasons_length_and_nonempty.1 sampleStartup sampleInvestor 100 _ ?_
    simp [generateRecommendationReasons, sampleStartup, sampleInvestor,
      founderExperience, optGT, jsOrNum]
  · refine reasons_length_and_nonempty.2 sampleInvestor sampleStartup 100 _ ?_
    simp [generateInvestorMatchReasons, sampleStartup, sampleInvestor, optGT, jsOrNum]
    norm_num

/-! Helper lemmas about the stable descending insertion sort used by the
ranking pipeline. -/

theorem mem_insertByScoreDesc (x z : ScoredStartup) (l : List ScoredStartup) :
    z ∈ insertByScoreDesc x l ↔ z = x ∨ z ∈ l := by
  induction l with
  | nil => simp [insertByScoreDesc]
  | cons y ys ih =>
    simp only [insertByScoreDesc]
    split_ifs with hc
    · simp [List.mem_cons]
    · simp [List.mem_cons, ih, or_left_comm]

theorem pairwise_insertByScoreDesc (x : ScoredStartup) (l : List ScoredStartup)
    (hl : List.Pairwise (fun a b => b.aiScore ≤ a.aiScore) l) :
    List.Pairwise (fun a b => b.aiScore ≤ a.aiScore) (insertByScoreDesc x l) := by
  induction l with
  | nil => simp [insertByScoreDesc]
  | cons y ys ih =>
    rcases List.pairwise_cons.mp hl with ⟨hy, hys⟩
    simp only [insertByScoreDesc]
    split_ifs with hc
    · refine List.pairwise_cons.mpr ⟨?_, hl⟩
      intro z hz
      rcases List.mem_cons.mp hz with rfl | hz
      · exact hc
      · exact le_trans (hy z hz) hc
    · refine List.pairwise_cons.mpr ⟨?_, ih hys⟩
      intro z hz
      rcases (mem_insertByScoreDesc x z ys).mp hz with rfl | hz
      · exact le_of_not_le hc
      · exact hy z hz

theorem pairwise_sortByScoreDesc (l : List ScoredStartup) :
    List.Pairwise (fun a b => b.aiScore ≤ a.aiScore) (sortByScoreDesc l) := by
  induction l with
  | nil => simp [sortByScoreDesc]
  | cons x xs ih => exact pairwise_insertByScoreDesc x (sortByScoreDesc xs) ih

theorem filter_insertByScoreDesc_pos (x : ScoredStartup) (l : List ScoredStartup) (q : ℚ)
    (hx : x.aiScore = q) :
    (insertByScoreDesc x l).filter (fun r => decide (r.aiScore = q))
      = x :: l.filter (fun r => decide (r.aiScore = q)) := by
  induction l with
  | nil => simp [insertByScoreDesc, List.filter, hx]
  | cons y ys ih =>
    simp only [insertByScoreDesc]
    split_ifs with hc
    · simp [List.filter_cons, hx]
    · have hy : ¬ (y.aiScore = q) := fun h => hc (le_of_eq (h.trans hx.symm))
      simp [List.filter_cons, hy, ih]

theorem filter_insertByScoreDesc_neg (x : ScoredStartup) (l : List ScoredStartup) (q : ℚ)
    (hx : ¬ x.aiScore = q) :
    (insertByScoreDesc x l).filter (fun r => decide (r.aiScore = q))
      = l.filter (fun r => decide (r.aiScore = q)) := by
  induction l with
  | nil => simp [insertByScoreDesc, List.filter, hx]
  | cons y ys ih =>
    simp only [insertByScoreDesc]
    split_ifs with hc
    · simp [List.filter_cons, hx]
    · simp [List.filter_cons, ih]

/-- Stability of the sort: for every score value `q`, the sorted list carries
the elements scoring `q` in exactly their original order. -/
theorem filter_sortByScoreDesc (l : List ScoredStartup) (q : ℚ) :
    (sortByScoreDesc l).filter (fun r => decide (r.aiScore = q))
      = l.filter (fun r => decide (r.aiScore = q)) := by
  induction l with
  | nil => rfl
  | cons x xs ih =>
    have hstep : sortByScoreDesc (x :: xs) = insertByScoreDesc x (sortByScoreDesc xs) := rfl
    by_cases hx : x.aiScore = q
    · rw [hstep, filter_insertByScoreDesc_pos x _ q hx, ih]
      simp [List.filter_cons, hx]
    · rw [hstep, filter_insertByScoreDesc_neg x _ q hx, ih]
      simp [List.filter_cons, hx]

/-- Claim C8: the ranking pipeline of `getStartupRecommendationsForInvestor`
returns the scored candidates sorted non-increasingly by overall score,
truncated to at most `limit` elements, with candidates of equal score kept in
their original input order (stability stated for each score value as
preservation of the filtered sublist). -/
theorem rank_sorted_stable_truncated :
    ∀ (investor : Investor) (startups : List Startup) (limit : ℕ) (out : List ScoredStartup),
      getStartupRecommendationsForInvestor investor startups limit = Except.ok out →
      List.Pairwise (fun a b => b.aiScore ≤ a.aiScore) out
      ∧ out.length ≤ limit
      ∧ ∃ scored, scoreAll investor startups = Except.ok scored
          ∧ out = (sortByScoreDesc scored).take limit
          ∧ (∀ q : ℚ, (sortByScoreDesc scored).filter (fun r => decide (r.aiScore = q))
                = scored.filter (fun r => decide (r.aiScore = q)))
          ∧ (∀ q : ℚ, ((out.filter (fun r => decide (r.aiScore = q))).Sublist
                (scored.filter (fun r => decide (r.aiScore = q))))) := by
  intro investor startups limit out h
  cases hs : scoreAll investor startups with
  | error e =>
    simp only [getStartupRecommendationsForInvestor, hs] at h
    exact Except.noConfusion h
  | ok scored =>
    simp only [getStartupRecommendationsForInvestor, hs] at h
    obtain rfl := (Except.ok.inj h).symm
    refine ⟨List.Pairwise.sublist (List.take_sublist _ _) (pairwise_sortByScoreDesc scored),
      List.length_take_le _ _, scored, rfl, rfl, fun q => filter_sortByScoreDesc scored q,
      fun q => ?_⟩
    exact (filter_sortByScoreDesc scored q) ▸
      (List.Sublist.filter _ (List.take_sublist limit (sortByScoreDesc scored)))

/-- Witness for C8: ranking `[lowStartup, sampleStartup]` for `sampleInvestor`
returns them reordered by score (100 before 36.5), sorted and within the
limit. -/
theorem rank_sorted_stable_truncated_witness :
    List.Pairwise (fun a b => b.aiScore ≤ a.aiScore)
      ([⟨sampleStartup, 100,
          ["Matches your preferred AI sector",
           "Early-stage opportunity matching your risk appetite",
           "Located in your region"]⟩,
        ⟨lowStartup, 73/2, []⟩] : List ScoredStartup)
    ∧ ([⟨sampleStartup, 100,
          ["Matches your preferred AI sector",
           "Early-stage opportunity matching your risk appetite",
           "Located in your region"]⟩,
        ⟨lowStartup, 73/2, []⟩] : List ScoredStartup).length ≤ 5 := by
  have h := rank_sorted_stable_truncated sampleInvestor [lowStartup, sampleStartup] 5
    [⟨sampleStartup, 100,
      ["Matches your preferred AI sector",
       "Early-stage opportunity matching your risk appetite",
       "Located in your region"]⟩,
     ⟨lowStartup, 73/2, []⟩]
    (by
      simp [getStartupRecommendationsForInvestor, scoreAll, scoreOne, sortByScoreDesc,
        insertByScoreDesc, calculateStartupScore, calculateSectorScore, calculateStageScore,
        calculateLocationScore, calculateFundingScore, calculatePerformanceScore,
        calculateSocialProofScore, generateRecommendationReasons, effRiskTolerance,
        effCapacity, effMinInvestment, stagePreferences, aggressiveStageTable, globalMarkets,
        founderExperience, jsOrNum, jsOrString, optGT, sampleStartup, sampleInvestor,
        lowStartup, pastSectors]
      norm_num)
  exact ⟨h.1, h.2.1⟩
